import Mathlib

/-!
Shallow embedding of the Supra faucet Discord bot (`src/bot.js`) and proofs
about its rate-limiting policy, address validator and command orchestration.

Times are milliseconds since epoch, modelled as `Nat`.  JavaScript number
subtraction `now - t` appears in the source only inside the comparisons
`now - t < window` and `now - last < cooldown`; for `t ≤ now` truncated `Nat`
subtraction agrees with JS exactly, and for `t > now` both the JS negative
difference and the truncated `0` satisfy the `< window` test, so the
comparisons below coincide with the source on all inputs.  `Math.ceil` of the
(exact) division by 60000 is modelled as the `Nat` ceiling division
`(x + 59999) / 60000`.
-/

/-- `CONFIG.RATE_LIMIT_WINDOW` (bot.js line 11): 1 hour in milliseconds. -/
def RATE_LIMIT_WINDOW : Nat := 3600000

/-- `CONFIG.MAX_REQUESTS_PER_HOUR` (bot.js line 12). -/
def MAX_REQUESTS_PER_HOUR : Nat := 3

/-- `CONFIG.COOLDOWN_BETWEEN_REQUESTS` (bot.js line 13): 5 minutes in ms. -/
def COOLDOWN_BETWEEN_REQUESTS : Nat := 300000

/-- Discord user ids are opaque strings. -/
def UserId : Type := String

instance : DecidableEq UserId := inferInstanceAs (DecidableEq String)

/-- The two process-wide `Map`s of bot.js lines 20-21: `userRequests` maps a
user to the array of grant timestamps, `userCooldowns` to the timestamp of the
most recent grant.  A key absent from the JS `Map` is `none`. -/
structure BotState where
  userRequests : UserId → Option (List Nat)
  userCooldowns : UserId → Option Nat

/-- The state at process start: both maps empty. -/
def initState : BotState := ⟨fun _ => none, fun _ => none⟩

/-- The object returned by `checkRateLimit` (bot.js lines 39, 52, 55):
either `{allowed: true}`, or `{allowed: false}` with a cooldown message
carrying the rounded-up minutes left, or with the fixed hourly-limit
message. -/
inductive RateLimitDecision where
  | allowed
  | deniedCooldown (waitMinutes : Nat)
  | deniedQuota
deriving DecidableEq, Repr

/-- `isValidSupraAddress` (bot.js lines 24-28): tests the string against the
regex `/^0x[a-fA-F0-9]{64}$/`. -/
def isHexChar (c : Char) : Bool :=
  (('0' ≤ c && c ≤ '9') || ('a' ≤ c && c ≤ 'f') || ('A' ≤ c && c ≤ 'F'))

/-- `isValidSupraAddress` (bot.js lines 24-28).  The anchored regex matches
exactly the strings `0x` followed by 64 characters of `[a-fA-F0-9]`. -/
def isValidSupraAddress (address : String) : Bool :=
  let cs := address.toList
  decide (cs.length = 66) && decide (cs.take 2 = ['0', 'x'])
    && (cs.drop 2).all isHexChar

/-- Lines 43-55 of `checkRateLimit`: the hourly-limit part.  The source first
inserts an empty array for a user missing from `userRequests` (lines 44-46),
then filters the stored timestamps to those within the window (line 49) and
compares the count with the hourly maximum (line 51). -/
def hourlyCheck (s : BotState) (userId : UserId) (now : Nat) :
    RateLimitDecision × BotState :=
  let s1 : BotState :=
    if (s.userRequests userId).isSome then s
    else { s with userRequests := fun v => if v = userId then some [] else s.userRequests v }
  let requests := (s1.userRequests userId).getD []
  let recentRequests := requests.filter (fun timestamp => now - timestamp < RATE_LIMIT_WINDOW)
  if MAX_REQUESTS_PER_HOUR ≤ recentRequests.length then
    (.deniedQuota, s1)
  else
    (.allowed, s1)

/-- `checkRateLimit` (bot.js lines 31-56).  The source reads `Date.now()`
itself; here the clock value is the explicit argument `now`.  The cooldown
test (lines 35-41) runs first and returns without touching `userRequests`;
otherwise control falls through to the hourly check.  The JS mutation of the
global maps is modelled by returning the updated state alongside the
decision. -/
def checkRateLimit (s : BotState) (userId : UserId) (now : Nat) :
    RateLimitDecision × BotState :=
  match s.userCooldowns userId with
  | some lastRequest =>
    if now - lastRequest < COOLDOWN_BETWEEN_REQUESTS then
      (.deniedCooldown ((COOLDOWN_BETWEEN_REQUESTS - (now - lastRequest) + 59999) / 60000), s)
    else
      hourlyCheck s userId now
  | none => hourlyCheck s userId now

/-- `updateRateLimit` (bot.js lines 59-75): push `now` onto the user's
timestamp array (an absent user first gets an empty array, lines 62-64),
replace the array by its entries within the window (lines 70-71), and set the
user's cooldown entry to `now` (line 74). -/
def updateRateLimit (s : BotState) (userId : UserId) (now : Nat) : BotState :=
  let requests := (s.userRequests userId).getD []
  let recentRequests :=
    (requests ++ [now]).filter (fun timestamp => now - timestamp < RATE_LIMIT_WINDOW)
  { userRequests := fun v => if v = userId then some recentRequests else s.userRequests v,
    userCooldowns := fun v => if v = userId then some now else s.userCooldowns v }

/-- Outcome of `requestTokens` (bot.js lines 78-113), the single outbound
faucet call: a 2xx response, an HTTP error status, a timeout
(`ECONNABORTED`), or a connection-level failure.  The HTTP exchange itself is
the external collaborator; a command execution receives its outcome as an
input. -/
inductive FaucetOutcome where
  | success (data : String) (status : Nat)
  | apiError (status : Nat) (msg : String)
  | timeout
  | networkError
deriving DecidableEq, Repr

/-- `result.success` of the object built in `requestTokens`. -/
def FaucetOutcome.isSuccess : FaucetOutcome → Bool
  | .success _ _ => true
  | _ => false

/-- The reply embed sent by `handleFaucetCommand`. -/
inductive Reply where
  | invalidAddress
  | rateLimited (d : RateLimitDecision)
  | tokensSent
  | faucetFailed
deriving DecidableEq, Repr

/-- `handleFaucetCommand` (bot.js lines 213-298) as a state transformer:
validate the address (line 221, no state touched on failure); check the rate
limit (line 232, replying with the decision's reason on denial); otherwise
dispatch to the faucet and, only when the outcome is a success, call
`updateRateLimit` (line 255).  `tCheck` is the `Date.now()` read inside
`checkRateLimit` and `tGrant` the later read inside `updateRateLimit`. -/
def handleFaucetCommand (s : BotState) (userId : UserId) (address : String)
    (tCheck tGrant : Nat) (outcome : FaucetOutcome) : Reply × BotState :=
  if isValidSupraAddress address = false then
    (.invalidAddress, s)
  else
    match checkRateLimit s userId tCheck with
    | (.allowed, s1) =>
      if outcome.isSuccess then
        (.tokensSent, updateRateLimit s1 userId tGrant)
      else
        (.faucetFailed, s1)
    | (d, s1) => (.rateLimited d, s1)

/-- A JavaScript runtime error surfacing from a handler. -/
inductive JsError where
  | referenceError (name : String)
deriving DecidableEq, Repr

/-- The fields of the status embed (bot.js lines 361-381). -/
structure StatusReport where
  requestsThisHour : Nat
  requestsToday : Nat
  nextRequestTime : Option Nat
deriving DecidableEq, Repr

/-- `handleStatusCommand` (bot.js lines 335-384).  Lines 343-346 compute the
in-window request count from `userRequests` (reads only), but line 348 then
evaluates `userDailyRequests.has(userId)` where `userDailyRequests` is
declared nowhere in the program, so every invocation throws a
`ReferenceError` before any embed is constructed; the `interactionCreate`
catch-all (lines 195-209) turns it into a generic error reply.  No state is
mutated on this path. -/
def handleStatusCommand (s : BotState) (userId : UserId) (now : Nat) :
    Except JsError StatusReport × BotState :=
  let _requestsThisHour :=
    match s.userRequests userId with
    | some requests =>
      (requests.filter (fun timestamp => now - timestamp < RATE_LIMIT_WINDOW)).length
    | none => 0
  (.error (.referenceError "userDailyRequests"), s)

/-- `recentCount` of the spec: the number of stored grant timestamps within
the trailing window at time `now`. -/
def recentCount (s : BotState) (userId : UserId) (now : Nat) : Nat :=
  (((s.userRequests userId).getD []).filter
    (fun timestamp => now - timestamp < RATE_LIMIT_WINDOW)).length

/-- The cooldown condition of bot.js lines 35-37: the user has a cooldown
entry and less than `COOLDOWN_BETWEEN_REQUESTS` ms have elapsed since it. -/
def cooldownActive (s : BotState) (userId : UserId) (now : Nat) : Bool :=
  match s.userCooldowns userId with
  | some lastRequest => now - lastRequest < COOLDOWN_BETWEEN_REQUESTS
  | none => false

/-- States reachable by a sequential execution of the event loop from process
start: each inbound command (faucet or status) runs to completion before the
next, and inside one faucet execution the clock does not run backwards
between the rate-limit check and the grant recording (`tCheck ≤ tGrant`). -/
inductive Reachable : BotState → Prop where
  | init : Reachable initState
  | faucet (s : BotState) (u : UserId) (address : String) (tCheck tGrant : Nat)
      (out : FaucetOutcome) (hs : Reachable s) (ht : tCheck ≤ tGrant) :
      Reachable (handleFaucetCommand s u address tCheck tGrant out).2
  | status (s : BotState) (u : UserId) (now : Nat) (hs : Reachable s) :
      Reachable (handleStatusCommand s u now).2

/-- The spec's wording of address validity (§4.1), stated independently of
the source's regex so the two can be compared: the string is exactly the
prefix `0x` followed by 64 characters drawn from `[0-9a-fA-F]`. -/
def specValidAddress (s : String) : Prop :=
  ∃ t : List Char, s.toList = '0' :: 'x' :: t ∧ t.length = 64 ∧
    ∀ c ∈ t, ('0' ≤ c ∧ c ≤ '9') ∨ ('a' ≤ c ∧ c ≤ 'f') ∨ ('A' ≤ c ∧ c ≤ 'F')

/-- A syntactically valid Supra address: `0x` followed by 64 zeros. -/
def validAddr64 : String :=
  "0x0000000000000000000000000000000000000000000000000000000000000000"

/-- A state in which user `"u"` was granted once at time 0. -/
def cdState : BotState :=
  ⟨fun v => if v = "u" then some [0] else none,
   fun v => if v = "u" then some 0 else none⟩

/-- A state in which user `"u"` is simultaneously inside the cooldown and at
the hourly quota: three stored grants at time 0, last grant at time 0. -/
def bothLimitedState : BotState :=
  ⟨fun v => if v = "u" then some [0, 0, 0] else none,
   fun v => if v = "u" then some 0 else none⟩

/-- The state after three grants to `"u"`, each `COOLDOWN_BETWEEN_REQUESTS + 1`
milliseconds after the previous one. -/
def threeGrantsState : BotState :=
  updateRateLimit (updateRateLimit (updateRateLimit initState "u" 0) "u" 300001) "u" 600002

/-- The state after one successful faucet command execution by `"u"`. -/
def grantedOnceState : BotState :=
  (handleFaucetCommand initState "u" validAddr64 0 0 (.success "ok" 200)).2
/-! ### Helper lemmas about `hourlyCheck` and `checkRateLimit` -/

theorem snd_ite_pair {A B : Type} (c : Prop) [Decidable c] (a b : A) (x : B) :
    (if c then (a, x) else (b, x)).2 = x := by
  split <;> rfl

theorem fst_ite_pair {A B : Type} (c : Prop) [Decidable c] (a b : A) (x y : B) :
    (if c then (a, x) else (b, y)).1 = if c then a else b := by
  split <;> rfl

theorem hourlyCheck_snd (s : BotState) (u : UserId) (now : Nat) :
    (hourlyCheck s u now).2 =
      if (s.userRequests u).isSome then s
      else { s with userRequests := fun v => if v = u then some [] else s.userRequests v } := by
  unfold hourlyCheck
  dsimp only
  rw [snd_ite_pair]

theorem insertEmpty_getD (s : BotState) (u : UserId) :
    (((if (s.userRequests u).isSome then s
        else { s with userRequests := fun v => if v = u then some [] else s.userRequests v })
      ).userRequests u).getD [] = (s.userRequests u).getD [] := by
  rcases hr : s.userRequests u with _ | l <;> simp [hr]

theorem hourlyCheck_snd_userCooldowns (s : BotState) (u : UserId) (now : Nat) :
    (hourlyCheck s u now).2.userCooldowns = s.userCooldowns := by
  rw [hourlyCheck_snd]
  split <;> rfl

theorem hourlyCheck_snd_getD (s : BotState) (u : UserId) (now : Nat) :
    ((hourlyCheck s u now).2.userRequests u).getD [] = (s.userRequests u).getD [] := by
  rw [hourlyCheck_snd, insertEmpty_getD]

theorem hourlyCheck_snd_other (s : BotState) (u v : UserId) (now : Nat) (hvu : v ≠ u) :
    (hourlyCheck s u now).2.userRequests v = s.userRequests v := by
  rw [hourlyCheck_snd]
  split
  · rfl
  · simp [hvu]

theorem hourlyCheck_snd_of_isSome (s : BotState) (u : UserId) (now : Nat)
    (h : (s.userRequests u).isSome = true) : (hourlyCheck s u now).2 = s := by
  rw [hourlyCheck_snd, if_pos h]

theorem hourlyCheck_snd_isSome (s : BotState) (u : UserId) (now : Nat) :
    ((hourlyCheck s u now).2.userRequests u).isSome = true := by
  rw [hourlyCheck_snd]
  rcases hr : s.userRequests u with _ | l <;> simp [hr]

theorem hourlyCheck_fst (s : BotState) (u : UserId) (now : Nat) :
    (hourlyCheck s u now).1 =
      if MAX_REQUESTS_PER_HOUR ≤ recentCount s u now then .deniedQuota else .allowed := by
  unfold hourlyCheck recentCount
  dsimp only
  rw [fst_ite_pair, insertEmpty_getD]

theorem cooldown_branch (s : BotState) (u : UserId) (now last : Nat)
    (hc : s.userCooldowns u = some last) (hlt : now - last < COOLDOWN_BETWEEN_REQUESTS) :
    checkRateLimit s u now =
      (.deniedCooldown ((COOLDOWN_BETWEEN_REQUESTS - (now - last) + 59999) / 60000), s) := by
  simp only [checkRateLimit, hc, if_pos hlt]

theorem no_cooldown_branch (s : BotState) (u : UserId) (now : Nat)
    (h : cooldownActive s u now = false) :
    checkRateLimit s u now = hourlyCheck s u now := by
  unfold cooldownActive at h
  simp only [checkRateLimit]
  rcases hc : s.userCooldowns u with _ | last
  · rfl
  · rw [hc] at h
    simp only [decide_eq_false_iff_not] at h
    simp only [if_neg h]

theorem checkRateLimit_snd_cases (s : BotState) (u : UserId) (now : Nat) :
    (checkRateLimit s u now).2 = s ∨ (checkRateLimit s u now).2 = (hourlyCheck s u now).2 := by
  simp only [checkRateLimit]
  rcases hc : s.userCooldowns u with _ | last
  · right; rfl
  · dsimp only
    split
    · left; rfl
    · right; rfl

theorem checkRateLimit_snd_userCooldowns (s : BotState) (u : UserId) (now : Nat) :
    (checkRateLimit s u now).2.userCooldowns = s.userCooldowns := by
  rcases checkRateLimit_snd_cases s u now with h | h <;> rw [h]
  exact hourlyCheck_snd_userCooldowns s u now

theorem checkRateLimit_snd_getD (s : BotState) (u : UserId) (now : Nat) :
    ((checkRateLimit s u now).2.userRequests u).getD [] = (s.userRequests u).getD [] := by
  rcases checkRateLimit_snd_cases s u now with h | h <;> rw [h]
  exact hourlyCheck_snd_getD s u now

theorem checkRateLimit_snd_other (s : BotState) (u v : UserId) (now : Nat) (hvu : v ≠ u) :
    (checkRateLimit s u now).2.userRequests v = s.userRequests v := by
  rcases checkRateLimit_snd_cases s u now with h | h <;> rw [h]
  exact hourlyCheck_snd_other s u v now hvu

theorem checkRateLimit_snd_of_isSome (s : BotState) (u : UserId) (now : Nat)
    (h : (s.userRequests u).isSome = true) : (checkRateLimit s u now).2 = s := by
  rcases checkRateLimit_snd_cases s u now with h2 | h2 <;> rw [h2]
  exact hourlyCheck_snd_of_isSome s u now h

theorem checkRateLimit_snd_cooldownActive (s : BotState) (u : UserId) (now : Nat)
    (h : cooldownActive s u now = true) : (checkRateLimit s u now).2 = s := by
  unfold cooldownActive at h
  rcases hc : s.userCooldowns u with _ | last
  · rw [hc] at h
    simp at h
  · rw [hc] at h
    simp only [decide_eq_true_eq] at h
    rw [cooldown_branch s u now last hc h]

theorem checkRateLimit_snd_isSome_or (s : BotState) (u : UserId) (now : Nat) :
    ((checkRateLimit s u now).2.userRequests u).isSome = true ∨
      ((checkRateLimit s u now).2 = s ∧ cooldownActive s u now = true) := by
  by_cases ha : cooldownActive s u now = true
  · right
    exact ⟨checkRateLimit_snd_cooldownActive s u now ha, ha⟩
  · left
    have ha' : cooldownActive s u now = false := by
      revert ha
      cases cooldownActive s u now <;> simp
    rw [no_cooldown_branch s u now ha']
    exact hourlyCheck_snd_isSome s u now

theorem cooldownActive_congr (s s' : BotState) (u : UserId) (now : Nat)
    (hc : s'.userCooldowns u = s.userCooldowns u) :
    cooldownActive s' u now = cooldownActive s u now := by
  unfold cooldownActive
  rw [hc]

theorem checkRateLimit_snd_idem (s : BotState) (u : UserId) (now : Nat) :
    (checkRateLimit (checkRateLimit s u now).2 u now).2 = (checkRateLimit s u now).2 := by
  rcases checkRateLimit_snd_isSome_or s u now with h | ⟨he, ha⟩
  · exact checkRateLimit_snd_of_isSome _ u now h
  · rw [he]
    exact checkRateLimit_snd_cooldownActive s u now ha

theorem checkRateLimit_fst_congr (s s' : BotState) (u : UserId) (now : Nat)
    (hc : s'.userCooldowns u = s.userCooldowns u)
    (hr : (s'.userRequests u).getD [] = (s.userRequests u).getD []) :
    (checkRateLimit s' u now).1 = (checkRateLimit s u now).1 := by
  simp only [checkRateLimit, hc]
  rcases h : s.userCooldowns u with _ | last
  · rw [hourlyCheck_fst, hourlyCheck_fst]
    unfold recentCount
    rw [hr]
  · dsimp only
    split
    · rfl
    · rw [hourlyCheck_fst, hourlyCheck_fst]
      unfold recentCount
      rw [hr]

theorem checkRateLimit_fst_idem (s : BotState) (u : UserId) (now m : Nat) :
    (checkRateLimit (checkRateLimit s u now).2 u m).1 = (checkRateLimit s u m).1 :=
  checkRateLimit_fst_congr s (checkRateLimit s u now).2 u m
    (congrFun (checkRateLimit_snd_userCooldowns s u now) u)
    (checkRateLimit_snd_getD s u now)

theorem checkRateLimit_fst_of_no_cooldown (s : BotState) (u : UserId) (now : Nat)
    (h : cooldownActive s u now = false) :
    (checkRateLimit s u now).1 =
      if MAX_REQUESTS_PER_HOUR ≤ recentCount s u now then .deniedQuota else .allowed := by
  rw [no_cooldown_branch s u now h, hourlyCheck_fst]

theorem allowed_recentCount_lt (s : BotState) (u : UserId) (now : Nat)
    (h : (checkRateLimit s u now).1 = .allowed) :
    recentCount s u now < MAX_REQUESTS_PER_HOUR := by
  by_cases ha : cooldownActive s u now = true
  · exfalso
    unfold cooldownActive at ha
    rcases hc : s.userCooldowns u with _ | last
    · rw [hc] at ha
      simp at ha
    · rw [hc] at ha
      simp only [decide_eq_true_eq] at ha
      rw [cooldown_branch s u now last hc ha] at h
      cases h
  · have ha' : cooldownActive s u now = false := by
      revert ha
      cases cooldownActive s u now <;> simp
    rw [checkRateLimit_fst_of_no_cooldown s u now ha'] at h
    by_cases hq : MAX_REQUESTS_PER_HOUR ≤ recentCount s u now
    · rw [if_pos hq] at h
      cases h
    · omega

theorem updateRateLimit_userRequests_self (s : BotState) (u : UserId) (now : Nat) :
    (updateRateLimit s u now).userRequests u =
      some ((((s.userRequests u).getD []) ++ [now]).filter
        (fun timestamp => now - timestamp < RATE_LIMIT_WINDOW)) := by
  simp [updateRateLimit]

theorem updateRateLimit_userRequests_other (s : BotState) (u v : UserId) (now : Nat)
    (h : v ≠ u) : (updateRateLimit s u now).userRequests v = s.userRequests v := by
  simp [updateRateLimit, h]

theorem updateRateLimit_userCooldowns_self (s : BotState) (u : UserId) (now : Nat) :
    (updateRateLimit s u now).userCooldowns u = some now := by
  simp [updateRateLimit]

theorem updateRateLimit_length_le (s : BotState) (u : UserId) (t1 t2 : Nat)
    (hcnt : recentCount s u t1 < MAX_REQUESTS_PER_HOUR) (ht : t1 ≤ t2) :
    (((updateRateLimit s u t2).userRequests u).getD []).length ≤ MAX_REQUESTS_PER_HOUR := by
  rw [updateRateLimit_userRequests_self, Option.getD_some, List.filter_append,
    List.length_append]
  have h1 : (List.filter (fun timestamp => decide (t2 - timestamp < RATE_LIMIT_WINDOW))
      ((s.userRequests u).getD [])).length ≤ recentCount s u t1 := by
    unfold recentCount
    rw [← List.countP_eq_length_filter, ← List.countP_eq_length_filter]
    apply List.countP_mono_left
    intro x _ hp
    have hp' : t2 - x < RATE_LIMIT_WINDOW := by simpa using hp
    simpa using Nat.lt_of_le_of_lt (Nat.sub_le_sub_right ht x) hp'
  have h2 : (List.filter (fun timestamp => decide (t2 - timestamp < RATE_LIMIT_WINDOW))
      [t2]).length ≤ 1 := by
    simp [RATE_LIMIT_WINDOW]
  omega

theorem handleFaucetCommand_snd_of_failure (s : BotState) (u : UserId) (addr : String)
    (t1 t2 : Nat) (out : FaucetOutcome) (hv : isValidSupraAddress addr = true)
    (hf : out.isSuccess = false) :
    (handleFaucetCommand s u addr t1 t2 out).2 = (checkRateLimit s u t1).2 := by
  unfold handleFaucetCommand
  rw [hv]
  simp only [Bool.true_eq_false, if_false]
  rcases hck : checkRateLimit s u t1 with ⟨d, s1⟩
  cases d <;> simp [hf]

theorem handleFaucetCommand_length_le (s : BotState) (u0 : UserId) (addr : String)
    (t1 t2 : Nat) (out : FaucetOutcome) (ht : t1 ≤ t2)
    (ih : ∀ v, ((s.userRequests v).getD []).length ≤ MAX_REQUESTS_PER_HOUR) :
    ∀ v, (((handleFaucetCommand s u0 addr t1 t2 out).2.userRequests v).getD []).length
      ≤ MAX_REQUESTS_PER_HOUR := by
  intro v
  unfold handleFaucetCommand
  by_cases hv : isValidSupraAddress addr = false
  · rw [if_pos hv]
    exact ih v
  · rw [if_neg hv]
    rcases hck : checkRateLimit s u0 t1 with ⟨d, s1⟩
    have hs1 : s1 = (checkRateLimit s u0 t1).2 := by rw [hck]
    have hlen1 : ∀ w, ((s1.userRequests w).getD []).length ≤ MAX_REQUESTS_PER_HOUR := by
      intro w
      by_cases hw : w = u0
      · rw [hw, hs1, checkRateLimit_snd_getD]
        exact ih u0
      · rw [hs1, checkRateLimit_snd_other s u0 w t1 hw]
        exact ih w
    cases d with
    | allowed =>
      dsimp only
      by_cases hsucc : out.isSuccess = true
      · rw [if_pos hsucc]
        dsimp only
        by_cases hvu : v = u0
        · rw [hvu]
          apply updateRateLimit_length_le s1 u0 t1 t2 _ ht
          have h5 : recentCount s1 u0 t1 = recentCount s u0 t1 := by
            unfold recentCount
            rw [hs1, checkRateLimit_snd_getD]
          have h6 : recentCount s u0 t1 < MAX_REQUESTS_PER_HOUR := by
            apply allowed_recentCount_lt s u0 t1
            rw [hck]
          rw [h5]
          exact h6
        · rw [updateRateLimit_userRequests_other s1 u0 v t2 hvu]
          exact hlen1 v
      · rw [if_neg hsucc]
        exact hlen1 v
    | deniedCooldown m =>
      dsimp only
      exact hlen1 v
    | deniedQuota =>
      dsimp only
      exact hlen1 v

/-! ### Claim theorems -/

/-- Claim C1, counterexample: with a last grant at time 0 and `now = 1`, the
denial carries the rounded-up minutes value 5, not the raw remaining
`cooldownDuration - (now - lastGrantTimestamp) = 299999` milliseconds the
claim states. -/
theorem cooldown_denial_raw_remaining_refuted :
    (checkRateLimit bothLimitedState "u" 1).1 = .deniedCooldown 5 ∧
      (checkRateLimit bothLimitedState "u" 1).1 ≠
        .deniedCooldown (COOLDOWN_BETWEEN_REQUESTS - (1 - 0)) := by
  decide

/-- Claim C1 (amended): if a cooldown entry `last` exists and
`now - last < cooldownDuration`, `checkRateLimit` returns the cooldown
denial carrying the remaining time rounded up to whole minutes,
`ceil((cooldownDuration - (now - last)) / 60000)`; the state `s` is
arbitrary, so the denial is returned even when the hourly quota condition
also holds — cooldown takes precedence over quota. -/
theorem cooldown_denial_precedence (s : BotState) (u : UserId) (now last : Nat)
    (hc : s.userCooldowns u = some last) (_hle : last ≤ now)
    (hlt : now - last < COOLDOWN_BETWEEN_REQUESTS) :
    (checkRateLimit s u now).1 =
      .deniedCooldown ((COOLDOWN_BETWEEN_REQUESTS - (now - last)) ⌈/⌉ 60000) := by
  rw [cooldown_branch s u now last hc hlt]
  dsimp only
  rw [Nat.ceilDiv_eq_add_pred_div]
  have h : COOLDOWN_BETWEEN_REQUESTS - (now - last) + 60000 - 1
      = COOLDOWN_BETWEEN_REQUESTS - (now - last) + 59999 := by
    omega
  rw [h]

/-- Claim C1 witness: in a state where the user is both inside the cooldown
and at the hourly quota (three in-window grants), the check at `now = 1`
still reports the cooldown denial. -/
theorem cooldown_denial_precedence_witness :
    bothLimitedState.userCooldowns "u" = some 0 ∧ (0 : Nat) ≤ 1 ∧
      1 - 0 < COOLDOWN_BETWEEN_REQUESTS ∧
      MAX_REQUESTS_PER_HOUR ≤ recentCount bothLimitedState "u" 1 ∧
      (checkRateLimit bothLimitedState "u" 1).1 =
        .deniedCooldown ((COOLDOWN_BETWEEN_REQUESTS - (1 - 0)) ⌈/⌉ 60000) :=
  ⟨rfl, by decide, by decide, by decide,
    cooldown_denial_precedence bothLimitedState "u" 1 0 rfl (by decide) (by decide)⟩

/-- Claim C2: when the cooldown condition does not hold and at least
`MAX_REQUESTS_PER_HOUR` stored timestamps lie within the window,
`checkRateLimit` denies with the quota reason. -/
theorem quota_denial (s : BotState) (u : UserId) (now : Nat)
    (hcd : cooldownActive s u now = false)
    (hq : MAX_REQUESTS_PER_HOUR ≤ recentCount s u now) :
    (checkRateLimit s u now).1 = .deniedQuota := by
  rw [checkRateLimit_fst_of_no_cooldown s u now hcd, if_pos hq]

/-- Claim C2 witness: after three grants at times 0, 300001 and 600002 (each
`cooldownDuration + 1` apart, all within the window), a check at 900003 —
itself `cooldownDuration + 1` after the last grant, so the cooldown alone
would have allowed it — is denied for quota. -/
theorem quota_denial_witness :
    cooldownActive threeGrantsState "u" 900003 = false ∧
      MAX_REQUESTS_PER_HOUR ≤ recentCount threeGrantsState "u" 900003 ∧
      (checkRateLimit threeGrantsState "u" 900003).1 = .deniedQuota ∧
      threeGrantsState.userCooldowns "u" = some 600002 ∧
      COOLDOWN_BETWEEN_REQUESTS + 1 ≤ 900003 - 600002 :=
  ⟨by decide, by decide,
    quota_denial threeGrantsState "u" 900003 (by decide) (by decide),
    by decide, by decide⟩

/-- Claim C3: for a user whose only recorded grant is at `t0`, a check at
`t0 + window + 1` is allowed: the stale timestamp no longer counts toward
the quota and (with the default parameters, where the window exceeds the
cooldown) the cooldown has also expired. -/
theorem stale_grant_expires (u : UserId) (t0 : Nat) :
    (checkRateLimit (updateRateLimit initState u t0) u (t0 + RATE_LIMIT_WINDOW + 1)).1
      = .allowed := by
  have hreq : (updateRateLimit initState u t0).userRequests u = some [t0] := by
    rw [updateRateLimit_userRequests_self]
    simp [initState, RATE_LIMIT_WINDOW]
  have hcd : cooldownActive (updateRateLimit initState u t0) u
      (t0 + RATE_LIMIT_WINDOW + 1) = false := by
    unfold cooldownActive
    rw [updateRateLimit_userCooldowns_self]
    simp only [decide_eq_false_iff_not]
    unfold RATE_LIMIT_WINDOW COOLDOWN_BETWEEN_REQUESTS
    omega
  rw [checkRateLimit_fst_of_no_cooldown _ u _ hcd]
  have hrc : recentCount (updateRateLimit initState u t0) u
      (t0 + RATE_LIMIT_WINDOW + 1) = 0 := by
    unfold recentCount
    rw [hreq]
    have hstale : ¬ (t0 + RATE_LIMIT_WINDOW + 1 - t0 < RATE_LIMIT_WINDOW) := by
      unfold RATE_LIMIT_WINDOW
      omega
    simp [hstale]
  rw [hrc, if_neg (by decide : ¬ (MAX_REQUESTS_PER_HOUR ≤ 0))]

/-- Claim C4: `updateRateLimit` appends `now` to the user's timestamps,
prunes the sequence to exactly the entries with `now - timestamp < window`,
sets the cooldown timestamp to `now`, and afterwards every stored timestamp
for the user lies strictly within the window of `now`. -/
theorem updateRateLimit_effect (s : BotState) (u : UserId) (now : Nat) :
    (updateRateLimit s u now).userRequests u =
      some ((((s.userRequests u).getD []) ++ [now]).filter
        (fun timestamp => now - timestamp < RATE_LIMIT_WINDOW)) ∧
    (updateRateLimit s u now).userCooldowns u = some now ∧
    ∀ t ∈ ((updateRateLimit s u now).userRequests u).getD [],
      now - t < RATE_LIMIT_WINDOW := by
  refine ⟨updateRateLimit_userRequests_self s u now,
    updateRateLimit_userCooldowns_self s u now, ?_⟩
  intro t ht
  rw [updateRateLimit_userRequests_self, Option.getD_some] at ht
  have h := (List.mem_filter.mp ht).2
  simpa using h

/-- Claim C8: every invocation of the status command leaves the state
unchanged and aborts with the `ReferenceError` on the undeclared
`userDailyRequests` instead of reporting the computed values. -/
theorem statusCommand_throws_without_mutation (s : BotState) (u : UserId) (now : Nat) :
    handleStatusCommand s u now = (.error (.referenceError "userDailyRequests"), s) := rfl

/-- Claim C9: a cooldown denial after `e` elapsed milliseconds
(`e < cooldownDuration`) carries the remaining wait expressed in whole
minutes rounded up, `ceil((cooldownDuration - e) / 60000)` — the decision
holds no raw millisecond remaining value. -/
theorem cooldown_wait_minutes_ceil (s : BotState) (u : UserId) (last e : Nat)
    (hc : s.userCooldowns u = some last) (he : e < COOLDOWN_BETWEEN_REQUESTS) :
    (checkRateLimit s u (last + e)).1 =
      .deniedCooldown ((COOLDOWN_BETWEEN_REQUESTS - e) ⌈/⌉ 60000) := by
  have hsub : last + e - last = e := by omega
  have hlt : last + e - last < COOLDOWN_BETWEEN_REQUESTS := by omega
  rw [cooldown_branch s u (last + e) last hc hlt]
  dsimp only
  rw [hsub, Nat.ceilDiv_eq_add_pred_div]
  have h : COOLDOWN_BETWEEN_REQUESTS - e + 60000 - 1
      = COOLDOWN_BETWEEN_REQUESTS - e + 59999 := by
    omega
  rw [h]

/-- Claim C9 witness: 1 millisecond after a grant at time 0, the user is told
to wait 5 minutes. -/
theorem cooldown_wait_minutes_ceil_witness :
    cdState.userCooldowns "u" = some 0 ∧ 1 < COOLDOWN_BETWEEN_REQUESTS ∧
      (checkRateLimit cdState "u" (0 + 1)).1 =
        .deniedCooldown ((COOLDOWN_BETWEEN_REQUESTS - 1) ⌈/⌉ 60000) ∧
      (COOLDOWN_BETWEEN_REQUESTS - 1) ⌈/⌉ 60000 = 5 :=
  ⟨rfl, by decide, cooldown_wait_minutes_ceil cdState "u" 0 1 rfl (by decide),
    by rw [Nat.ceilDiv_eq_add_pred_div]; decide⟩

/-- Claim C5: the validator accepts exactly the strings consisting of the
prefix `0x` followed by exactly 64 characters of `[0-9a-fA-F]`, with no
trimming or normalization; concrete rejected shapes (empty, 63 hex, 65 hex,
missing prefix, non-hex character, surrounding whitespace) and accepted
examples (all-lowercase and mixed-case hex) follow from it and are also
checked directly. -/
theorem isValidSupraAddress_characterization :
    (∀ a : String, isValidSupraAddress a = true ↔ specValidAddress a) ∧
      isValidSupraAddress "" = false ∧
      isValidSupraAddress
        "0x000000000000000000000000000000000000000000000000000000000000000" = false ∧
      isValidSupraAddress
        "0x00000000000000000000000000000000000000000000000000000000000000000" = false ∧
      isValidSupraAddress
        "0000000000000000000000000000000000000000000000000000000000000000" = false ∧
      isValidSupraAddress
        "0x000000000000000000000000000000000000000000000000000000000000000g" = false ∧
      isValidSupraAddress
        " 0x0000000000000000000000000000000000000000000000000000000000000000" = false ∧
      isValidSupraAddress
        "0x0000000000000000000000000000000000000000000000000000000000000000 " = false ∧
      isValidSupraAddress
        "0x0123456789abcdef0123456789abcdef0123456789abcdef0123456789abcdef" = true ∧
      isValidSupraAddress
        "0x0123456789ABCDEF0123456789abcdef0123456789ABCDEF0123456789abcdef" = true := by
  refine ⟨?_, by decide, by decide, by decide, by decide, by decide, by decide,
    by decide, by decide, by decide⟩
  intro a
  unfold isValidSupraAddress specValidAddress
  dsimp only
  constructor
  · intro h
    simp only [Bool.and_eq_true, decide_eq_true_eq, List.all_eq_true] at h
    obtain ⟨⟨hlen, htake⟩, hall⟩ := h
    rcases hcs : a.toList with _ | ⟨c0, cs1⟩
    · rw [hcs] at hlen
      simp at hlen
    rcases cs1 with _ | ⟨c1, t⟩
    · rw [hcs] at hlen
      simp at hlen
    rw [hcs] at hlen htake hall
    simp only [List.take, List.cons.injEq, and_true] at htake
    obtain ⟨h0, h1⟩ := htake
    refine ⟨t, by rw [h0, h1], ?_, ?_⟩
    · simp only [List.length_cons] at hlen
      omega
    · intro c hc
      have h2 := hall c (by simpa using hc)
      unfold isHexChar at h2
      simp only [Bool.or_eq_true, Bool.and_eq_true, decide_eq_true_eq] at h2
      exact or_assoc.mp h2
  · rintro ⟨t, hts, hlen, hall⟩
    simp only [Bool.and_eq_true, decide_eq_true_eq, List.all_eq_true]
    refine ⟨⟨?_, ?_⟩, ?_⟩
    · rw [hts]
      simp [hlen]
    · rw [hts]
      rfl
    · intro c hc
      rw [hts] at hc
      simp only [List.drop] at hc
      have h3 := hall c hc
      unfold isHexChar
      simp only [Bool.or_eq_true, Bool.and_eq_true, decide_eq_true_eq]
      exact or_assoc.mpr h3

/-- Claim C6, counterexample: for a user with no prior record, a command
execution whose faucet call times out does not leave the state literally
equal to the state before it — `checkRateLimit` inside the execution
inserted an empty request entry for the user. -/
theorem failed_dispatch_state_refuted :
    (handleFaucetCommand initState "u" validAddr64 5 5 .timeout).2.userRequests "u"
        = some [] ∧
      initState.userRequests "u" = none ∧
      (handleFaucetCommand initState "u" validAddr64 5 5 .timeout).2 ≠ initState := by
  refine ⟨by decide, rfl, fun h => ?_⟩
  have h2 : (some ([] : List Nat)) = none := by
    calc (some ([] : List Nat))
        = (handleFaucetCommand initState "u" validAddr64 5 5 .timeout).2.userRequests "u" := by
          decide
      _ = initState.userRequests "u" := by rw [h]
      _ = none := rfl
  simp at h2

/-- Claim C6 (amended): whenever the faucet dispatch fails, no grant is
recorded — the user's timestamp sequence (reading an absent entry as empty),
the user's cooldown entry, every other user's entry, and the decision of any
subsequent `checkRateLimit` are exactly as before the execution; the only
possible difference is the creation of an empty timestamp entry for a
previously unrecorded user. -/
theorem failed_dispatch_preserves_user (s : BotState) (u : UserId) (addr : String)
    (t1 t2 : Nat) (out : FaucetOutcome)
    (hv : isValidSupraAddress addr = true) (hf : out.isSuccess = false) :
    ((handleFaucetCommand s u addr t1 t2 out).2.userRequests u).getD []
        = (s.userRequests u).getD [] ∧
      (handleFaucetCommand s u addr t1 t2 out).2.userCooldowns = s.userCooldowns ∧
      (∀ v, v ≠ u → (handleFaucetCommand s u addr t1 t2 out).2.userRequests v
        = s.userRequests v) ∧
      ∀ m, (checkRateLimit (handleFaucetCommand s u addr t1 t2 out).2 u m).1
        = (checkRateLimit s u m).1 := by
  rw [handleFaucetCommand_snd_of_failure s u addr t1 t2 out hv hf]
  exact ⟨checkRateLimit_snd_getD s u t1, checkRateLimit_snd_userCooldowns s u t1,
    fun v hvu => checkRateLimit_snd_other s u v t1 hvu,
    fun m => checkRateLimit_fst_idem s u t1 m⟩

/-- Claim C6 witness: a timed-out dispatch for a fresh user preserves the
grant data and the decision of an immediately subsequent check. -/
theorem failed_dispatch_preserves_user_witness :
    isValidSupraAddress validAddr64 = true ∧
      FaucetOutcome.isSuccess .timeout = false ∧
      ((handleFaucetCommand initState "u" validAddr64 5 5 .timeout).2.userRequests "u").getD []
        = (initState.userRequests "u").getD [] ∧
      (handleFaucetCommand initState "u" validAddr64 5 5 .timeout).2.userCooldowns
        = initState.userCooldowns ∧
      (checkRateLimit (handleFaucetCommand initState "u" validAddr64 5 5 .timeout).2 "u" 7).1
        = (checkRateLimit initState "u" 7).1 :=
  ⟨by decide, rfl,
    (failed_dispatch_preserves_user initState "u" validAddr64 5 5 .timeout (by decide) rfl).1,
    (failed_dispatch_preserves_user initState "u" validAddr64 5 5 .timeout (by decide) rfl).2.1,
    (failed_dispatch_preserves_user initState "u" validAddr64 5 5 .timeout
      (by decide) rfl).2.2.2 7⟩

/-- Claim C7, counterexample: the very first `checkRateLimit` for a user with
no prior record mutates the state, inserting an empty request entry. -/
theorem first_check_mutates_fresh_user :
    (checkRateLimit initState "u" 0).2.userRequests "u" = some [] ∧
      initState.userRequests "u" = none ∧
      (checkRateLimit initState "u" 0).2 ≠ initState := by
  refine ⟨by decide, rfl, fun h => ?_⟩
  have h2 : (some ([] : List Nat)) = none := by
    calc (some ([] : List Nat))
        = (checkRateLimit initState "u" 0).2.userRequests "u" := by decide
      _ = initState.userRequests "u" := by rw [h]
      _ = none := rfl
  simp at h2

/-- Claim C7 (amended): with the same `now` and no intervening `recordGrant`,
a repeated `checkRateLimit` returns the same decision and the second call
changes nothing; a user with an existing requests record is never mutated,
the cooldown map never is, other users' entries never are, and the user's
timestamp sequence read with default `[]` is unchanged — the sole possible
mutation is the insertion of an empty entry for a previously unrecorded
user. -/
theorem checkRateLimit_idempotent (s : BotState) (u : UserId) (now : Nat) :
    (checkRateLimit (checkRateLimit s u now).2 u now).1 = (checkRateLimit s u now).1 ∧
      (checkRateLimit (checkRateLimit s u now).2 u now).2 = (checkRateLimit s u now).2 ∧
      ((s.userRequests u).isSome = true → (checkRateLimit s u now).2 = s) ∧
      (checkRateLimit s u now).2.userCooldowns = s.userCooldowns ∧
      ((checkRateLimit s u now).2.userRequests u).getD [] = (s.userRequests u).getD [] ∧
      ∀ v, v ≠ u → (checkRateLimit s u now).2.userRequests v = s.userRequests v :=
  ⟨checkRateLimit_fst_idem s u now now, checkRateLimit_snd_idem s u now,
    fun h => checkRateLimit_snd_of_isSome s u now h,
    checkRateLimit_snd_userCooldowns s u now, checkRateLimit_snd_getD s u now,
    fun v hvu => checkRateLimit_snd_other s u v now hvu⟩

/-- Claim C7 witness: for a user with an existing record the repeated check
at the same time gives the same decision and the state is fully unchanged. -/
theorem checkRateLimit_idempotent_witness :
    (cdState.userRequests "u").isSome = true ∧
      (checkRateLimit (checkRateLimit cdState "u" 1).2 "u" 1).1
        = (checkRateLimit cdState "u" 1).1 ∧
      (checkRateLimit cdState "u" 1).2 = cdState ∧
      ("v" : UserId) ≠ "u" ∧
      (checkRateLimit cdState "u" 1).2.userRequests "v" = cdState.userRequests "v" :=
  ⟨rfl, (checkRateLimit_idempotent cdState "u" 1).1,
    (checkRateLimit_idempotent cdState "u" 1).2.2.1 rfl,
    by decide, (checkRateLimit_idempotent cdState "u" 1).2.2.2.2.2 "v" (by decide)⟩

/-- Claim C10: in every state reachable by a sequential execution from
process start, each user's stored timestamp list has length at most
`MAX_REQUESTS_PER_HOUR` (in particular just after each `updateRateLimit`),
and hence at most that many stored entries lie within the trailing window at
any time. -/
theorem reachable_quota_invariant (s : BotState) (hs : Reachable s) (u : UserId) :
    ((s.userRequests u).getD []).length ≤ MAX_REQUESTS_PER_HOUR ∧
      ∀ now, recentCount s u now ≤ MAX_REQUESTS_PER_HOUR := by
  have main : ∀ v, ((s.userRequests v).getD []).length ≤ MAX_REQUESTS_PER_HOUR := by
    induction hs with
    | init =>
      intro v
      simp [initState]
    | faucet s0 u0 addr t1 t2 out hs0 ht ih =>
      exact handleFaucetCommand_length_le s0 u0 addr t1 t2 out ht ih
    | status s0 u0 now0 hs0 ih =>
      exact ih
  refine ⟨main u, fun now => ?_⟩
  unfold recentCount
  exact le_trans (List.length_filter_le _ _) (main u)

/-- Claim C10 witness: the state after one successful faucet execution is
reachable and satisfies both bounds. -/
theorem reachable_quota_invariant_witness :
    ((grantedOnceState.userRequests "u").getD []).length ≤ MAX_REQUESTS_PER_HOUR ∧
      recentCount grantedOnceState "u" 0 ≤ MAX_REQUESTS_PER_HOUR := by
  have hr : Reachable grantedOnceState :=
    Reachable.faucet initState "u" validAddr64 0 0 (.success "ok" 200)
      Reachable.init (Nat.le_refl 0)
  exact ⟨(reachable_quota_invariant grantedOnceState hr "u").1,
    (reachable_quota_invariant grantedOnceState hr "u").2 0⟩
